import Mathlib

/-!
Shallow embedding of the babytracker web application (src/babytracker/web.py)
and proofs about its event-logging data model, display formatting, and the
bilirubin reference curve.

Timestamps are modelled as minutes since an arbitrary epoch (`Int`).  SQL cell
values are modelled by `Option Value` where `none` stands for NULL/NaN.
-/

/-- Value stored in one SQL cell: a number, a boolean, or a string
(colors, icon markup, timestamps in ISO form). -/
inductive Value
  | num (q : ℚ)
  | bool (b : Bool)
  | str (s : String)
deriving DecidableEq

/-- Event categories; web.py line 823: `for category in ['drink', 'diaper', 'pump', 'doctor']`. -/
inductive Category
  | drink
  | diaper
  | pump
  | doctor
deriving DecidableEq

/-- One stored row: the `time` index plus the category-specific columns,
as written by `on_click_update` (web.py lines 848-857). -/
structure Row where
  time : Int
  fields : List (String × Option Value)
deriving DecidableEq

/-- State of the sqlite store: one optional table per category.  `none` means
the table has not been created yet (no row was ever appended). -/
abbrev Store := Category → Option (List Row)

/-- Column labels of the Bhutani nomogram table (web.py line 56). -/
def HYPERBILIRUBINEMIA_columns : List String := ["40th", "75th", "95th"]

/-- Index of the Bhutani nomogram table, age in hours (web.py line 72). -/
def HYPERBILIRUBINEMIA_index : List ℤ := [20, 24, 28, 40, 44, 48, 60, 72, 84, 96, 120, 132, 168]

/-- Data of the fixed 13-row Bhutani nomogram table in mg/dL
(web.py lines 57-71, `HYPERBILIRUBINEMIA['data']`). -/
def HYPERBILIRUBINEMIA_data : List (List ℚ) :=
  [[4.75, 5.8, 7.25],
   [5.0, 6.4, 7.9],
   [5.6, 7.0, 8.9],
   [7.75, 9.9, 12.2],
   [8.1, 10.2, 12.5],
   [8.6, 10.9, 13.1],
   [9.6, 12.7, 15.1],
   [11.1, 13.25, 15.9],
   [11.75, 14.7, 16.75],
   [12.4, 15.1, 17.4],
   [13.25, 15.75, 17.6],
   [13.1, 15.5, 17.5],
   [13.1, 15.5, 17.5]]

/-- Reference curve drawn by `generate_bilirubin_figure` (web.py line 85):
`pd.DataFrame.from_dict(HYPERBILIRUBINEMIA, orient='tight').multiply(17.1)`,
the mg/dL table converted to µmol/L with the constant factor 17.1 = 171/10.
The Python code multiplies IEEE doubles; here exact rationals stand in, which
agrees with the float computation well within 1e-9. -/
def generate_bilirubin_figure_df : List (List ℚ) :=
  HYPERBILIRUBINEMIA_data.map (List.map (· * (171 / 10)))

/-- Markup produced by `generate_fa_icon` (web.py lines 213-237): a stacked
fontawesome icon, serialized by lxml to one line. -/
def generate_fa_icon (icon : String) : String :=
  "<span class=\"fa-stack\"><i class=\"fa-stack-1x fa-solid fa-circle smoke\"></i><i class=\"fa-stack-1x fa-solid fa-circle-" ++ icon ++ "\"></i></span>"

/-- Direction of a relative time expression rendered by babel. -/
inductive Direction
  | past
  | future
deriving DecidableEq

/-- Model of the external call `babel.dates.format_timedelta(td, locale=...,
granularity='minutes', add_direction=True)` (web.py lines 883-889): with
`add_direction` the rendered string is determined by the sign of the delta
(negative deltas render in the past direction, "5 minutes ago"; nonnegative
deltas in the future direction, "in 5 minutes") and by its magnitude.  Only
the direction and the magnitude in minutes are modelled; the locale-specific
wording is external. -/
def localize_timedelta_dir (d : Int) : Direction × Nat :=
  (if d < 0 then Direction.past else Direction.future, d.natAbs)

/-- Model of the external call `babel.dates.format_timedelta(td, locale=...,
granularity='minutes')` without `add_direction` (web.py lines 894-899): the
rendered string is determined by the magnitude of the delta alone, so a delta
and its negation render identically.  Only the magnitude in minutes is
modelled; the locale-specific wording is external. -/
def localize_timedelta (d : Int) : Nat :=
  d.natAbs

/-- Descending-time order on rows: `a` comes before `b` when `a` is at least
as recent. -/
def rdescRow : Row → Row → Prop := fun a b => b.time ≤ a.time

instance : DecidableRel rdescRow := fun a b => Int.decLe b.time a.time

instance : IsTotal Row rdescRow := ⟨fun a b => le_total b.time a.time⟩

instance : IsTrans Row rdescRow := ⟨fun _ _ _ hab hbc => le_trans hbc hab⟩

/-- Model of `df.sort_values(by='time', ascending=False)` (web.py lines
877-878): the rows reordered most-recent-first.  The concrete sorting
algorithm used by pandas is unspecified up to this reordering. -/
def sort_values_time_desc (rows : List Row) : List Row :=
  rows.insertionSort rdescRow

/-- Test used by the pandas bool-dtype check: a cell holds a non-null boolean. -/
def isBoolVal : Option Value → Bool
  | some (Value.bool _) => true
  | _ => false

/-- Model of `df.dtypes == bool` for one column (web.py line 906): a column
has bool dtype exactly when every value stored in it is a non-null boolean
(a single NULL/NaN makes the dtype object, not bool). -/
def colIsBool (rows : List Row) (c : String) : Bool :=
  rows.all fun r => r.fields.all fun p => if p.1 = c then isBoolVal p.2 else true

/-- Model of `df[boolean].replace(to_replace=[True, False], value=[check, xmark])`
applied to one cell of a bool-dtype column (web.py lines 903-909). -/
def replace_bool_cell (v : Option Value) : Option Value :=
  match v with
  | some (Value.bool true) => some (Value.str (generate_fa_icon "check"))
  | some (Value.bool false) => some (Value.str (generate_fa_icon "xmark"))
  | w => w

/-- One record of `df.to_dict('records')` (web.py line 910): the row time, the
inserted `delta` and `age` columns, and the category columns after the
boolean-to-marker replacement. -/
structure DisplayRow where
  time : Int
  delta : Direction × Nat
  age : Nat
  fields : List (String × Option Value)
deriving DecidableEq

/-- Formatting layer of `update_table2` (web.py lines 877-910): sort the rows
most-recent-first, insert `delta = time - now` rendered with direction and
`age = BIRTH_DATE - time` rendered without direction, and replace booleans in
bool-dtype columns by the check/xmark markers. -/
def format_for_display (rows : List Row) (now birth : Int) : List DisplayRow :=
  (sort_values_time_desc rows).map fun r =>
    { time := r.time
      delta := localize_timedelta_dir (r.time - now)
      age := localize_timedelta (birth - r.time)
      fields := r.fields.map fun p =>
        (p.1, if colIsBool (sort_values_time_desc rows) p.1 then replace_bool_cell p.2 else p.2) }

/-- Model of `pd.read_sql_table(category, con=ENGINE)` as a read of the store
state; returns `none` when the table does not exist (pandas raises
`ValueError` in that case, which the caller catches). -/
def read_sql_table (c : Category) : StateM Store (Option (List Row)) :=
  fun s => (s c, s)

/-- The `update_table2` callback (web.py lines 873-925).  When the category
table exists its rows are formatted for display.  When it does not exist the
`ValueError` from `read_sql_table` is caught and `df` is set to the empty
`pd.DataFrame()` (lines 879-881) -- but that frame has no `time` column, so
the very next statement `df.time - now` (line 891) raises `AttributeError`,
which nothing catches; this surfaces as a callback error.  The error branch
models that uncaught exception. -/
def update_table2 (c : Category) (now birth : Int) :
    StateM Store (Except String (List DisplayRow)) :=
  read_sql_table c >>= fun t =>
    match t with
    | some rows => pure (Except.ok (format_for_display rows now birth))
    | none => pure (Except.error "AttributeError: DataFrame object has no attribute time")

/-- Store-level query: the read-and-sort prefix of `update_table2` (web.py
lines 876-878), returning all rows of a category most-recent-first, or `none`
when the table does not exist. -/
def queryRows (s : Store) (c : Category) : Option (List Row) :=
  (s c).map sort_values_time_desc

/-- Model of `df.set_index('time').to_sql(category, con=ENGINE,
if_exists='append')` (web.py line 855): append one row to the category table,
creating the table when it does not exist yet; all other tables are untouched. -/
def to_sql_append (s : Store) (c : Category) (r : Row) : Store :=
  fun c2 => if c2 = c then some (((s c).getD []) ++ [r]) else s c2

/-- The storing branch of the `on_click_update` callback (web.py lines
848-857): the pending payload (with its `type` key popped off) is appended as
one row, indexed by its timestamp. -/
def on_click_update (s : Store) (c : Category) (t : Int) (fields : List (String × Option Value)) : Store :=
  to_sql_append s c { time := t, fields := fields }

/-- The `update_output` callback (web.py lines 782-791): the age of the
instant currently in the date picker (falling back to `now` when the picker is
empty), rendered as a `{days}d{hours}h{minutes}m` string.  All instants are in
minutes, matching the minute granularity of the picker; Python divmod on a
`timedelta` floors, hence `ediv`/`emod`. -/
def update_output (date_value : Option Int) (now birth : Int) : String :=
  let date_object := date_value.getD now
  let age := date_object - birth
  let days := age.ediv 1440
  let rem := age.emod 1440
  let hours := rem.ediv 60
  let minutes := rem.emod 60
  s!"{days}d{hours}h{minutes}m"

/-- One row of the diaper table with its typed columns (web.py lines 516-545):
`changed`, `pee`, `pee-color`, `poo`, `poo-color`. -/
structure DiaperRow where
  time : Int
  changed : Bool
  pee : Bool
  peeColor : Option String
  poo : Bool
  pooColor : Option String
deriving DecidableEq

/-- Ascending order on the (time, color) series extracted from the diaper
table. -/
def rascPair : (Int × String) → (Int × String) → Prop := fun a b => a.1 ≤ b.1

instance : DecidableRel rascPair := fun a b => Int.decLe a.1 b.1

instance : IsTotal (Int × String) rascPair := ⟨fun a b => le_total a.1 b.1⟩

instance : IsTrans (Int × String) rascPair := ⟨fun _ _ _ hab hbc => le_trans hab hbc⟩

/-- Model of `.sort_index()` on the time-indexed color series (web.py line
944): ascending by the time index. -/
def sort_index_asc (l : List (Int × String)) : List (Int × String) :=
  l.insertionSort rascPair

/-- The `update_last_pee_color` callback (web.py lines 936-945).  When the pee
toggle is off it returns `dash.no_update` (outer `none`).  Otherwise it
evaluates `df[df.pee]['pee-color'].dropna().sort_index().tail(1).iloc[0]`:
filter the diaper rows with `pee` set, keep their non-null colors indexed by
time, sort ascending by time and take the last one.  The inner `none` models
the `IndexError` that `iloc[0]` raises when that series is empty. -/
def update_last_pee_color (value : Bool) (rows : List DiaperRow) : Option (Option String) :=
  if !value then none
  else
    let series := (rows.filter fun r => r.pee).filterMap fun r => r.peeColor.map fun col => (r.time, col)
    some ((sort_index_asc series).getLast?.map Prod.snd)

/-- Python dict holding the pending payload of `on_update_data`: a finite map
from column name to cell value; `none` means the key is absent. -/
abbrev Dict := String → Option (Option Value)

/-- Setting one key of the payload dict. -/
def dictSet (d : Dict) (k : String) (v : Option Value) : Dict :=
  fun k2 => if k2 = k then some v else d k2

/-- One form input as seen by `on_update_data`: its pattern-matching id index,
its current value, and its `disabled` flag. -/
structure Widget where
  index : String
  value : Option Value
  disabled : Bool
deriving DecidableEq

/-- The `on_update_data` callback (web.py lines 823-839): build the payload
dict from the widget values (`dict(zip(...))`, later entries winning), then
overwrite the entry of every disabled widget with `None`, then set the `time`
and `type` keys. -/
def on_update_data (time : String) (widgets : List Widget) (category : String) : Dict :=
  let inputs := widgets.foldl (fun d w => dictSet d w.index w.value) (fun _ => none)
  let inputs := widgets.foldl (fun d w => if w.disabled then dictSet d w.index none else d) inputs
  let inputs := dictSet inputs "time" (some (Value.str time))
  dictSet inputs "type" (some (Value.str category))

/-! Helper lemmas. -/

/-- Permuting a list does not change an `all` test. -/
theorem perm_all_eq {α : Type} {p : α → Bool} {l l2 : List α} (h : l.Perm l2) :
    l.all p = l2.all p := by
  induction h with
  | nil => rfl
  | cons x _ ih => simp [List.all_cons, ih]
  | swap x y l => simp only [List.all_cons, ← Bool.and_assoc, Bool.and_comm (p x) (p y)]
  | trans _ _ ih1 ih2 => rw [ih1, ih2]

/-- Sorting the rows does not change which columns have bool dtype. -/
theorem colIsBool_sort (rows : List Row) (c : String) :
    colIsBool (sort_values_time_desc rows) c = colIsBool rows c :=
  perm_all_eq (List.perm_insertionSort rdescRow rows)

/-- Last element of an ascending-sorted (time, color) series has maximal time. -/
theorem sorted_getLast_max : ∀ (l : List (Int × String)), l.Sorted rascPair →
    ∀ y, l.getLast? = some y → ∀ x, x ∈ l → x.1 ≤ y.1
  | [], _, y, hy, x, hx => by simp at hy
  | [a], _, y, hy, x, hx => by
      simp at hy hx; subst hy; subst hx; exact le_refl _
  | a :: b :: t, hs, y, hy, x, hx => by
      rw [List.getLast?_cons_cons] at hy
      rcases List.mem_cons.mp hx with h1 | h2
      · subst h1
        have hab : rascPair x b := (List.sorted_cons.mp hs).1 b (by simp)
        have hb := sorted_getLast_max (b :: t) (List.sorted_cons.mp hs).2 y hy b (by simp)
        exact le_trans hab hb
      · exact sorted_getLast_max (b :: t) (List.sorted_cons.mp hs).2 y hy x h2

/-- Once the payload holds NULL at a key, the disabled-overwrite loop keeps it NULL. -/
theorem disabled_fold_preserves (idx : String) :
    ∀ (widgets : List Widget) (d : Dict), d idx = some none →
      (widgets.foldl (fun d w => if w.disabled then dictSet d w.index none else d) d) idx = some none
  | [], _, hd => hd
  | w :: ws, d, hd => by
      rw [List.foldl_cons]
      refine disabled_fold_preserves idx ws _ ?_
      by_cases hw : w.disabled
      · simp only [hw, if_true, dictSet]
        split <;> simp [hd]
      · simp [hw, hd]

/-- The disabled-overwrite loop sets NULL at the key of any disabled widget. -/
theorem disabled_fold_sets (idx : String) :
    ∀ (widgets : List Widget) (d : Dict), (∃ w ∈ widgets, w.index = idx ∧ w.disabled = true) →
      (widgets.foldl (fun d w => if w.disabled then dictSet d w.index none else d) d) idx = some none
  | [], _, h => by simp at h
  | w :: ws, d, h => by
      rw [List.foldl_cons]
      rcases h with ⟨w2, hw2, hidx, hdis⟩
      rcases List.mem_cons.mp hw2 with h1 | h2
      · subst h1
        refine disabled_fold_preserves idx ws _ ?_
        simp only [hdis, if_true, dictSet, hidx, if_pos rfl]
      · exact disabled_fold_sets idx ws _ ⟨w2, h2, hidx, hdis⟩

/-! Claim theorems. -/

/-- Entry-wise description of the conversion at web.py line 85: every entry of
the converted frame is the corresponding mg/dL entry times 171/10. -/
theorem bilirubin_df_entry (i j : ℕ) :
    (generate_bilirubin_figure_df.getD i []).getD j 0 =
      ((HYPERBILIRUBINEMIA_data.getD i []).getD j 0) * (171 / 10) := by
  simp only [generate_bilirubin_figure_df, List.getD_eq_getElem?_getD, List.getElem?_map]
  rcases h : HYPERBILIRUBINEMIA_data[i]? with _ | row
  · simp
  · simp only [Option.map_some', Option.getD_some, List.getD_eq_getElem?_getD,
      List.getElem?_map]
    rcases h2 : row[j]? with _ | x
    · simp
    · simp

/-- C1: every entry of the fixed 13-row Bhutani mg/dL nomogram table (13 index
ages 20..168 h, 3 percentile columns) is converted for the bilirubin chart by
multiplying with exactly 17.1 = 171/10, so the curve value equals the
tabulated mg/dL value times 17.1 and in particular lies within 1e-9 of it. -/
theorem bilirubin_curve_scaled (i j : ℕ) (_hi : i < 13) (_hj : j < 3) :
    (generate_bilirubin_figure_df.getD i []).getD j 0 =
      ((HYPERBILIRUBINEMIA_data.getD i []).getD j 0) * (171 / 10) ∧
    |(generate_bilirubin_figure_df.getD i []).getD j 0 -
      ((HYPERBILIRUBINEMIA_data.getD i []).getD j 0) * (171 / 10)| ≤ 1 / 1000000000 := by
  refine ⟨bilirubin_df_entry i j, ?_⟩
  rw [bilirubin_df_entry i j]
  norm_num

/-- Witness for C1 at the first table entry (age 20 h, 40th percentile). -/
theorem bilirubin_curve_scaled_witness :
    (generate_bilirubin_figure_df.getD 0 []).getD 0 0 =
      ((HYPERBILIRUBINEMIA_data.getD 0 []).getD 0 0) * (171 / 10) ∧
    |(generate_bilirubin_figure_df.getD 0 []).getD 0 0 -
      ((HYPERBILIRUBINEMIA_data.getD 0 []).getD 0 0) * (171 / 10)| ≤ 1 / 1000000000 :=
  bilirubin_curve_scaled 0 0 (by norm_num) (by norm_num)

/-- C2: appending a row of any category and then querying that category yields
the appended row unchanged, and the rows present before the append are all
still present unchanged: the result is a permutation of the old rows plus the
new one. -/
theorem append_then_query_roundtrip (s : Store) (c : Category) (t : Int)
    (fields : List (String × Option Value)) :
    ∃ l, queryRows (on_click_update s c t fields) c = some l ∧
      l.Perm (((s c).getD []) ++ [{ time := t, fields := fields }]) ∧
      ({ time := t, fields := fields } : Row) ∈ l ∧
      ∀ r ∈ (s c).getD [], r ∈ l := by
  refine ⟨sort_values_time_desc (((s c).getD []) ++ [{ time := t, fields := fields }]),
    ?_, ?_, ?_, ?_⟩
  · simp [queryRows, on_click_update, to_sql_append]
  · exact List.perm_insertionSort _ _
  · exact (List.perm_insertionSort _ _).mem_iff.mpr (by simp)
  · intro r hr
    exact (List.perm_insertionSort _ _).mem_iff.mpr (List.mem_append_left _ hr)

/-- Witness for C2: appending a diaper row to an empty store. -/
theorem append_then_query_roundtrip_witness :
    ∃ l, queryRows (on_click_update (fun _ => none) Category.diaper 0
        [("changed", some (Value.bool true))]) Category.diaper = some l ∧
      l.Perm ((((fun _ => none : Store) Category.diaper).getD []) ++
        [{ time := 0, fields := [("changed", some (Value.bool true))] }]) ∧
      ({ time := 0, fields := [("changed", some (Value.bool true))] } : Row) ∈ l ∧
      ∀ r ∈ ((fun _ => none : Store) Category.diaper).getD [], r ∈ l :=
  append_then_query_roundtrip (fun _ => none) Category.diaper 0
    [("changed", some (Value.bool true))]

/-- C3 (code bug): querying a category whose table was never created does NOT
return an empty display set: `update_table2` catches the `ValueError` of
`read_sql_table` and replaces `df` by the empty `pd.DataFrame()`, but that
frame has no `time` column, so `df.time - now` raises an uncaught
`AttributeError` that surfaces as a callback error.  Only a table that exists
but is empty yields the empty display set. -/
theorem update_table2_missing_table_raises :
    ((update_table2 Category.drink 0 0).run (fun _ => none)).1 =
      Except.error "AttributeError: DataFrame object has no attribute time" ∧
    ((update_table2 Category.drink 0 0).run
      (fun c => if c = Category.drink then some [] else none)).1 = Except.ok [] :=
  ⟨rfl, rfl⟩

/-- C4: the displayed age of every stored row is the elapsed duration between
the row timestamp and the birth instant, rendered as a localized duration.
The code computes `BIRTH_DATE - df.time` (web.py line 900), but the
direction-less localization renders the magnitude, so the display equals the
localization of `time - BIRTH_DATE`, and its value is the non-negative
elapsed time for rows timestamped after birth.  For the date picker
(`update_output`, web.py lines 782-791), birth 2024-01-01T00:00 and value
2024-01-02T03:15 (1635 minutes apart) render as "1d3h15m", the locale
rendering of 1 day, 3 hours (and 15 minutes). -/
theorem display_age_elapsed :
    (∀ (rows : List Row) (now birth : Int) (dr : DisplayRow),
        dr ∈ format_for_display rows now birth →
        dr.age = localize_timedelta (dr.time - birth) ∧
        (birth ≤ dr.time → (dr.age : Int) = dr.time - birth)) ∧
    update_output (some 1635) 0 0 = "1d3h15m" := by
  constructor
  · intro rows now birth dr hdr
    simp only [format_for_display, List.mem_map] at hdr
    obtain ⟨r, hr, rfl⟩ := hdr
    constructor
    · simp only [localize_timedelta]
      omega
    · intro hb
      simp only [localize_timedelta] at *
      omega
  · rfl

/-- Witness for C4: one doctor row 1635 minutes after birth. -/
theorem display_age_elapsed_witness :
    ((⟨1635, (Direction.future, 1635), 1635, []⟩ : DisplayRow).age : Int) =
      (⟨1635, (Direction.future, 1635), 1635, []⟩ : DisplayRow).time - 0 ∧
    update_output (some 1635) 0 0 = "1d3h15m" :=
  ⟨(display_age_elapsed.1 [{ time := 1635, fields := [] }] 0 0 _ (by decide)).2 (by decide),
   display_age_elapsed.2⟩

/-- C5 counterexample: the claim says the displayed recency of every row at
every instant is `now - row.timestamp` rendered in the past direction.  For a
row timestamped 5 minutes after `now` (a future-dated entry, which the date
picker permits), the code renders the future direction, not the past one, so
the claim fails at this input. -/
theorem display_delta_direction_cex :
    ((update_table2 Category.drink 0 0).run
      (fun c => if c = Category.drink then some [{ time := 5, fields := [] }] else none)).1 =
      Except.ok [⟨5, (Direction.future, 5), 5, []⟩] ∧
    (Direction.future, (5 : ℕ)) ≠ (Direction.past, ((0 : Int) - 5).natAbs) :=
  ⟨rfl, by decide⟩

/-- C5 (amended): the displayed recency of every row is computed from
`row.timestamp - now` (web.py line 891) and rendered with direction: a row
older than `now` renders in the past direction with magnitude
`now - row.timestamp` (a row 5 minutes old renders as "5 minutes ago"),
while a future-dated row renders in the future direction. -/
theorem display_delta_direction (rows : List Row) (now birth : Int) (dr : DisplayRow)
    (hdr : dr ∈ format_for_display rows now birth) :
    dr.delta = localize_timedelta_dir (dr.time - now) ∧
    (dr.time < now → dr.delta = (Direction.past, (now - dr.time).toNat)) ∧
    (now ≤ dr.time → dr.delta.1 = Direction.future) := by
  simp only [format_for_display, List.mem_map] at hdr
  obtain ⟨r, hr, rfl⟩ := hdr
  refine ⟨rfl, ?_, ?_⟩
  · intro h
    replace h : r.time < now := h
    show localize_timedelta_dir (r.time - now) = (Direction.past, (now - r.time).toNat)
    simp only [localize_timedelta_dir, Prod.mk.injEq]
    refine ⟨by rw [if_pos (show r.time - now < 0 by omega)], by omega⟩
  · intro h
    replace h : now ≤ r.time := h
    show (if r.time - now < 0 then Direction.past else Direction.future) = Direction.future
    rw [if_neg (show ¬(r.time - now < 0) by omega)]

/-- Witness for C5: a drink row 5 minutes old renders in the past direction
with magnitude 5. -/
theorem display_delta_direction_witness :
    (⟨0, (Direction.past, 5), 0, []⟩ : DisplayRow).delta =
      localize_timedelta_dir ((⟨0, (Direction.past, 5), 0, []⟩ : DisplayRow).time - 5) ∧
    (⟨0, (Direction.past, 5), 0, []⟩ : DisplayRow).delta =
      (Direction.past, ((5 : Int) - (⟨0, (Direction.past, 5), 0, []⟩ : DisplayRow).time).toNat) :=
  ⟨(display_delta_direction [{ time := 0, fields := [] }] 5 0 _ (by decide)).1,
   (display_delta_direction [{ time := 0, fields := [] }] 5 0 _ (by decide)).2.1 (by decide)⟩

/-- C6: in the display output, every cell of a bool-dtype column is replaced:
`True` by the fixed check marker and `False` by the distinct fixed cross
marker; a NULL cell is never mapped to either marker (its column is not of
bool dtype, so the cell stays absent). -/
theorem display_bool_markers (rows : List Row) (now birth : Int) (r : Row) (c : String)
    (v : Option Value) (hr : r ∈ rows) (hv : (c, v) ∈ r.fields) :
    ∃ dr ∈ format_for_display rows now birth, dr.time = r.time ∧
      (colIsBool rows c = true →
        ((v = some (Value.bool true) →
            (c, some (Value.str (generate_fa_icon "check"))) ∈ dr.fields) ∧
         (v = some (Value.bool false) →
            (c, some (Value.str (generate_fa_icon "xmark"))) ∈ dr.fields))) ∧
      (v = none → (c, none) ∈ dr.fields ∧ colIsBool rows c = false) ∧
      generate_fa_icon "check" ≠ generate_fa_icon "xmark" := by
  have hrs : r ∈ sort_values_time_desc rows :=
    (List.perm_insertionSort rdescRow rows).mem_iff.mpr hr
  refine ⟨_, List.mem_map_of_mem _ hrs, rfl, ?_, ?_, by decide⟩
  · intro hcb
    constructor
    · rintro rfl
      refine List.mem_map.mpr ⟨(c, some (Value.bool true)), hv, ?_⟩
      simp [colIsBool_sort, hcb, replace_bool_cell]
    · rintro rfl
      refine List.mem_map.mpr ⟨(c, some (Value.bool false)), hv, ?_⟩
      simp [colIsBool_sort, hcb, replace_bool_cell]
  · rintro rfl
    have hfalse : colIsBool rows c = false := by
      by_contra hcb
      rw [Bool.not_eq_false, colIsBool, List.all_eq_true] at hcb
      have h1 := hcb r hr
      rw [List.all_eq_true] at h1
      have h2 := h1 (c, none) hv
      simp [isBoolVal] at h2
    refine ⟨?_, hfalse⟩
    refine List.mem_map.mpr ⟨(c, none), hv, ?_⟩
    simp [colIsBool_sort, hfalse]

/-- Witness for C6: a diaper row with `pee = True` displays the check marker. -/
theorem display_bool_markers_witness :
    ∃ dr ∈ format_for_display [{ time := 0, fields := [("pee", some (Value.bool true))] }] 0 0,
      dr.time = ({ time := 0, fields := [("pee", some (Value.bool true))] } : Row).time ∧
      (colIsBool [{ time := 0, fields := [("pee", some (Value.bool true))] }] "pee" = true →
        ((some (Value.bool true) = some (Value.bool true) →
            ("pee", some (Value.str (generate_fa_icon "check"))) ∈ dr.fields) ∧
         (some (Value.bool true) = some (Value.bool false) →
            ("pee", some (Value.str (generate_fa_icon "xmark"))) ∈ dr.fields))) ∧
      (some (Value.bool true) = none →
        ("pee", none) ∈ dr.fields ∧
        colIsBool [{ time := 0, fields := [("pee", some (Value.bool true))] }] "pee" = false) ∧
      generate_fa_icon "check" ≠ generate_fa_icon "xmark" :=
  display_bool_markers [{ time := 0, fields := [("pee", some (Value.bool true))] }] 0 0
    { time := 0, fields := [("pee", some (Value.bool true))] } "pee"
    (some (Value.bool true)) (by decide) (by decide)

/-- C7: querying a category whose table exists and is non-empty returns all of
its rows (a permutation of the stored rows) ordered most-recent-first by
timestamp. -/
theorem query_sorted_most_recent_first (s : Store) (c : Category) (rows : List Row)
    (h : s c = some rows) (hne : rows ≠ []) :
    ∃ l, queryRows s c = some l ∧ l.Perm rows ∧ l.Sorted rdescRow ∧ l ≠ [] := by
  refine ⟨sort_values_time_desc rows, by simp [queryRows, h], List.perm_insertionSort _ _,
    List.sorted_insertionSort _ _, ?_⟩
  intro hnil
  have hl := (List.perm_insertionSort rdescRow rows).length_eq
  rw [show sort_values_time_desc rows = List.insertionSort rdescRow rows from rfl] at hnil
  rw [hnil] at hl
  exact hne (List.length_eq_zero.mp hl.symm)

/-- Witness for C7: a pump table with two rows. -/
theorem query_sorted_most_recent_first_witness :
    ∃ l, queryRows
        (fun c2 => if c2 = Category.pump then
          some [{ time := 1, fields := [] }, { time := 9, fields := [] }] else none)
        Category.pump = some l ∧
      l.Perm [{ time := 1, fields := [] }, { time := 9, fields := [] }] ∧
      l.Sorted rdescRow ∧ l ≠ [] :=
  query_sorted_most_recent_first
    (fun c2 => if c2 = Category.pump then
      some [{ time := 1, fields := [] }, { time := 9, fields := [] }] else none)
    Category.pump
    [{ time := 1, fields := [] }, { time := 9, fields := [] }]
    (by decide) (by decide)

/-- C8: when the pee toggle is switched on and the diaper history holds at
least one row with `pee` set and a non-null pee color, the form prefills the
pee color of a most recent such row (largest timestamp among the qualifying
rows). -/
theorem last_pee_color_prefill (rows : List DiaperRow)
    (h : ∃ r ∈ rows, r.pee = true ∧ r.peeColor ≠ none) :
    ∃ r ∈ rows, r.pee = true ∧ r.peeColor ≠ none ∧
      update_last_pee_color true rows = some r.peeColor ∧
      ∀ r2 ∈ rows, r2.pee = true → r2.peeColor ≠ none → r2.time ≤ r.time := by
  obtain ⟨r0, hr0, hp0, hc0⟩ := h
  obtain ⟨col0, hcol0⟩ := Option.ne_none_iff_exists'.mp hc0
  set series := (rows.filter fun r => r.pee).filterMap
    (fun r => r.peeColor.map fun col => (r.time, col)) with hseries
  have hmem0 : (r0.time, col0) ∈ series := by
    rw [hseries]
    refine List.mem_filterMap.mpr ⟨r0, List.mem_filter.mpr ⟨hr0, by simp [hp0]⟩, ?_⟩
    rw [hcol0]; rfl
  have hsorted : (sort_index_asc series).Sorted rascPair := List.sorted_insertionSort _ _
  have hperm : (sort_index_asc series).Perm series := List.perm_insertionSort _ _
  have hmem0s : (r0.time, col0) ∈ sort_index_asc series := hperm.mem_iff.mpr hmem0
  cases hy : (sort_index_asc series).getLast? with
  | none =>
    rw [List.getLast?_eq_none_iff] at hy
    rw [hy] at hmem0s
    cases hmem0s
  | some y =>
    have hymem : y ∈ series := hperm.mem_iff.mp (List.mem_of_getLast?_eq_some hy)
    obtain ⟨r1, hr1f, hr1y⟩ := List.mem_filterMap.mp hymem
    have hr1 : r1 ∈ rows := (List.mem_filter.mp hr1f).1
    have hp1 : r1.pee = true := by simpa using (List.mem_filter.mp hr1f).2
    obtain ⟨col1, hcol1⟩ : ∃ col1, r1.peeColor = some col1 := by
      cases hc : r1.peeColor with
      | none => rw [hc] at hr1y; simp at hr1y
      | some col1 => exact ⟨col1, rfl⟩
    rw [hcol1, Option.map_some'] at hr1y
    obtain rfl := Option.some.inj hr1y
    refine ⟨r1, hr1, hp1, by rw [hcol1]; simp, ?_, ?_⟩
    · rw [update_last_pee_color]
      rw [if_neg (by decide : ¬((!true) = true))]
      show some (Option.map Prod.snd (sort_index_asc series).getLast?) = some r1.peeColor
      rw [hy, hcol1]
      rfl
    · intro r2 hr2 hp2 hc2
      obtain ⟨col2, hcol2⟩ := Option.ne_none_iff_exists'.mp hc2
      have hmem2 : (r2.time, col2) ∈ series := by
        rw [hseries]
        refine List.mem_filterMap.mpr ⟨r2, List.mem_filter.mpr ⟨hr2, by simp [hp2]⟩, ?_⟩
        rw [hcol2]; rfl
      have hmem2s : (r2.time, col2) ∈ sort_index_asc series := hperm.mem_iff.mpr hmem2
      exact sorted_getLast_max (sort_index_asc series) hsorted _ hy (r2.time, col2) hmem2s

/-- Witness for C8: two qualifying diaper rows, the later one with color
"#F8E45C"; the prefill returns exactly that color. -/
theorem last_pee_color_prefill_witness :
    (∃ r ∈ ([⟨0, true, true, some "#AAAAAA", false, none⟩,
             ⟨10, true, true, some "#F8E45C", false, none⟩] : List DiaperRow),
      r.pee = true ∧ r.peeColor ≠ none ∧
      update_last_pee_color true
        ([⟨0, true, true, some "#AAAAAA", false, none⟩,
          ⟨10, true, true, some "#F8E45C", false, none⟩] : List DiaperRow) = some r.peeColor ∧
      ∀ r2 ∈ ([⟨0, true, true, some "#AAAAAA", false, none⟩,
               ⟨10, true, true, some "#F8E45C", false, none⟩] : List DiaperRow),
        r2.pee = true → r2.peeColor ≠ none → r2.time ≤ r.time) ∧
    update_last_pee_color true
      ([⟨0, true, true, some "#AAAAAA", false, none⟩,
        ⟨10, true, true, some "#F8E45C", false, none⟩] : List DiaperRow) =
      some (some "#F8E45C") :=
  ⟨last_pee_color_prefill _ (by decide), by decide⟩

/-- C9: the display-refresh operation reads the store but never writes it:
running `update_table2` leaves the stored rows unchanged, and running it a
second time on the resulting store produces the same display output. -/
theorem update_table2_no_mutation_idempotent (c : Category) (now birth : Int) (s : Store) :
    ((update_table2 c now birth).run s).2 = s ∧
    ((update_table2 c now birth).run (((update_table2 c now birth).run s).2)).1 =
      ((update_table2 c now birth).run s).1 := by
  cases hc : s c <;>
    simp [update_table2, read_sql_table, StateT.run, bind, StateT.bind, pure, StateT.pure, hc]

/-- C10: the payload assembled for a pending append maps the key of every
disabled form input to NULL, regardless of the value the disabled widget
still holds. -/
theorem disabled_inputs_null (time : String) (widgets : List Widget) (category : String)
    (idx : String) (h1 : idx ≠ "time") (h2 : idx ≠ "type")
    (h : ∃ w ∈ widgets, w.index = idx ∧ w.disabled = true) :
    on_update_data time widgets category idx = some none := by
  unfold on_update_data
  simp only [dictSet]
  rw [if_neg h2, if_neg h1]
  exact disabled_fold_sets idx widgets _ h

/-- Witness for C10: a disabled pee-color input still holding "#F8E45C"
contributes NULL, not the stale color. -/
theorem disabled_inputs_null_witness :
    on_update_data "2024-01-02T03:15"
      [{ index := "pee", value := some (Value.bool false), disabled := false },
       { index := "pee-color", value := some (Value.str "#F8E45C"), disabled := true }]
      "diaper" "pee-color" = some none :=
  disabled_inputs_null "2024-01-02T03:15"
    [{ index := "pee", value := some (Value.bool false), disabled := false },
     { index := "pee-color", value := some (Value.str "#F8E45C"), disabled := true }]
    "diaper" "pee-color" (by decide) (by decide) (by decide)
